import Mathlib

/-!
Verification of the subtitle-acquisition core of this repository.

Two source files are embedded:
* `bazarr/subtitles/mass_download/movies.py` — the per-movie acquisition
  orchestrator `movies_download_subtitles`;
* `custom_libs/subliminal_patch/providers/fileflows.py` — the job-based
  FileFlows provider (constructor validation, job polling loop with backoff,
  candidate listing, materialization).

Python strings that are inspected character by character (the raw
missing-subtitle entries) are embedded as `List Char`; wall-clock time and the
poll interval (floats in the source, all values exactly representable) are
embedded as `ℚ`; external collaborators (database row, path mapper, provider
registry, `generate_subtitles`, the remote HTTP endpoints) are oracle
parameters.  Fallible Python code is embedded with `Except`/`Option`.
-/

namespace Bazarr

/-- Python errors that the embedded code can raise. -/
inductive PyErr where
  | configurationError (msg : String)
  | attributeError
  | osError
deriving Repr, DecidableEq

/-! ### Missing-language resolver (movies.py lines 59–69) -/

/-- Embedding of Python `s.split(":")` on a character list: splits into the
colon-separated groups, always returning at least one (possibly empty) group,
exactly like Python `str.split` with an explicit separator. -/
def pySplit : List Char → List (List Char)
  | [] => [[]]
  | c :: rest =>
    let groups := pySplit rest
    if c = ':' then [] :: groups
    else (c :: groups.headD []) :: groups.tail

/-- Embedding of Python `s.endswith(suffix)`. -/
def pyEndsWith (suffix s : List Char) : Bool :=
  suffix.isSuffixOf s

/-- One step of the resolver (movies.py lines 64–66): from a raw entry
`language`, build the triple `(language.split(":")[0], hi_, forced_)` where the
flags are the Python strings `"True"`/`"False"` computed from the `:hi` /
`:forced` suffix tests. -/
def resolveEntry (language : List Char) : List Char × String × String :=
  ((pySplit language).headD [],
   if pyEndsWith [':', 'h', 'i'] language then "True" else "False",
   if pyEndsWith [':', 'f', 'o', 'r', 'c', 'e', 'd'] language then "True" else "False")

/-- Embedding of the provider-guarded resolver loop (movies.py lines 59–69).
`get_providers i` is the provider registry's answer at the i-th loop iteration
(the registry is consulted once per raw entry, in order).  Returns the built
language triples together with the total number of registry consultations.
A `none` entry (Python `None`) is skipped; an empty registry answer breaks the
loop. -/
def buildLanguagesAux (get_providers : Nat → List String) :
    List (Option (List Char)) → Nat → List (List Char × String × String) × Nat
  | [], idx => ([], idx)
  | language :: rest, idx =>
    if get_providers idx ≠ [] then
      let r := buildLanguagesAux get_providers rest (idx + 1)
      (match language with
       | some lang => resolveEntry lang :: r.1
       | none => r.1, r.2)
    else ([], idx + 1)

/-- The resolver loop started at registry call 0. -/
def buildLanguages (get_providers : Nat → List String)
    (entries : List (Option (List Char))) :
    List (List Char × String × String) × Nat :=
  buildLanguagesAux get_providers entries 0

/-! ### The movie record and the orchestrator (movies.py lines 22–93) -/

/-- Projection of the `TableMovies` row selected at movies.py lines 25–36.
`missing_subtitles` holds the value of `ast.literal_eval(movie.missing_subtitles)`
(`literal_eval` is deterministic, so the three evaluations in the source agree);
the raw value is a Python list of strings or `None` entries. -/
structure MovieRecord where
  path : String
  missing_subtitles : List (Option (List Char))
  audio_language : String
  radarrId : Nat
  sceneName : String
  title : String
  profileId : Nat
deriving Repr, DecidableEq

/-- One element yielded by the external `generate_subtitles` generator:
either falsy (skipped by `if result:`), a plain result object carrying a
`message`, or a non-empty tuple whose first element carries the `message`
(movies.py lines 86–88). -/
inductive GenResult where
  | falsy
  | single (message : String)
  | tuple1 (message : String)
deriving Repr, DecidableEq

/-- The message dispatched to the sinks for one generator element, or `none`
when the element is falsy and the body of the `if` is skipped. -/
def truthyMessage : GenResult → Option String
  | .falsy => none
  | .single m => some m
  | .tuple1 m => some m

/-- Everything observable about one `movies_download_subtitles` call:
its Python return value (the source returns `None` on every path, so this
field can only ever be `none`), the notification messages sent in order, how
many times the store / history sinks ran, the progress events, the number of
registry consultations and the language list handed to `generate_subtitles`. -/
structure AcquireOutcome where
  returnValue : Option (List String)
  notified : List String
  historyLogged : Nat
  stored : Nat
  progressStart : Option (Nat × Nat)
  progressEnd : Bool
  registryCalls : Nat
  languagesPassed : List (List Char × String × String)
deriving Repr, DecidableEq

/-- Embedding of `movies_download_subtitles` (movies.py lines 22–93).
Oracles: `movie` is the database row (or `none`); `path_replace_movie` the
path mapper; `path_exists` the filesystem check; `audio_profiles` the names
returned by `get_audio_profile_languages`; `get_providers` the registry's
answer per consultation; `gen` the external `generate_subtitles` generator as
a function of the movie path, the language triples and the audio language
(its remaining arguments — scene name, title, `'movie'`, profile id,
`check_if_still_required` — do not influence the observables recorded here).
A missing movie row logs and returns `None`; a missing on-disk path executes
`raise OSError`. -/
def movies_download_subtitles
    (movie : Option MovieRecord)
    (path_replace_movie : String → String)
    (path_exists : String → Bool)
    (audio_profiles : String → List String)
    (get_providers : Nat → List String)
    (gen : String → List (List Char × String × String) → String → List GenResult) :
    Except PyErr AcquireOutcome :=
  match movie with
  | none =>
    .ok { returnValue := none, notified := [], historyLogged := 0, stored := 0,
          progressStart := none, progressEnd := false, registryCalls := 0,
          languagesPassed := [] }
  | some m =>
    let moviePath := path_replace_movie m.path
    if path_exists moviePath = false then
      .error .osError
    else
      let count_movie := if m.missing_subtitles ≠ [] then m.missing_subtitles.length else 0
      let audio_language_list := audio_profiles m.audio_language
      let audio_language := if audio_language_list.length > 0 then audio_language_list.headD "None" else "None"
      let built := buildLanguages get_providers m.missing_subtitles
      let results := gen moviePath built.1 audio_language
      let processed := results.filterMap truthyMessage
      .ok { returnValue := none,
            notified := processed,
            historyLogged := processed.length,
            stored := processed.length,
            progressStart := some (0, count_movie),
            progressEnd := true,
            registryCalls := built.2,
            languagesPassed := built.1 }

end Bazarr

namespace FileFlows

/-! ### FileFlows provider (fileflows.py) -/

/-- Logging level names: the upper-case attributes of Python's `logging`
module that `logger.setLevel` accepts (fileflows.py lines 19–21). -/
def loggingLevelNames : List String :=
  ["CRITICAL", "FATAL", "ERROR", "WARN", "WARNING", "INFO", "DEBUG", "NOTSET"]

/-- Embedding of Python `str.upper()` (ASCII arguments). -/
def pyUpper (s : String) : String :=
  String.mk (s.data.map Char.toUpper)

/-- Embedding of `set_log_level` (fileflows.py lines 19–21): `newLevel.upper()`
raises `AttributeError` when `newLevel` is `None`; a name that is not a valid
logging level makes `getattr(logging, newLevel)`/`logger.setLevel` raise
(collapsed here into the same error value). -/
def set_log_level (newLevel : Option String) : Except Bazarr.PyErr Unit :=
  match newLevel with
  | none => .error .attributeError
  | some s => if pyUpper s ∈ loggingLevelNames then .ok () else .error .attributeError

/-- Python truthiness test `not x` for an optional string (`None` and `""` are
falsy). -/
def pyFalsyStr : Option String → Bool
  | none => true
  | some s => s = ""

/-- Python truthiness test `not x` for an optional integer (`None` and `0` are
falsy). -/
def pyFalsyInt : Option Int → Bool
  | none => true
  | some n => n = 0

/-- Embedding of Python `s.rstrip("/")`. -/
def pyRstripSlash (s : String) : String :=
  String.mk ((s.data.reverse.dropWhile (fun c => c = '/')).reverse)

/-- The state a successfully constructed `FileFlowsProvider` holds
(fileflows.py lines 77–82).  `session` mirrors `self.session`, which
`__init__` leaves as `None`: no HTTP session exists — hence no network call
can have been made — until `initialize` runs later. -/
structure FileFlowsConfig where
  api_url : String
  api_key : String
  workflow_id : String
  timeout : Int
  session : Option Unit
deriving Repr, DecidableEq

/-- Embedding of `FileFlowsProvider.__init__` (fileflows.py lines 60–82):
first `set_log_level(loglevel)`, then the four `ConfigurationError` guards in
source order, then the pure field assignments.  No branch performs any network
interaction; the result's `session` is `none`. -/
def FileFlowsProvider.init (api_url api_key workflow_id : Option String)
    (timeout : Option Int) (loglevel : Option String) :
    Except Bazarr.PyErr FileFlowsConfig :=
  match set_log_level loglevel with
  | .error e => .error e
  | .ok _ =>
    if pyFalsyStr api_url then
      .error (.configurationError "FileFlows API URL must be provided")
    else if pyFalsyStr api_key then
      .error (.configurationError "FileFlows API Key must be provided")
    else if pyFalsyStr workflow_id then
      .error (.configurationError "FileFlows Workflow ID must be provided")
    else if pyFalsyInt timeout then
      .error (.configurationError "FileFlows API timeout must be provided")
    else
      .ok { api_url := pyRstripSlash (api_url.getD ""),
            api_key := api_key.getD "",
            workflow_id := workflow_id.getD "",
            timeout := timeout.getD 0,
            session := none }

/-- Embedding of `check_job_status` (fileflows.py lines 133–149).  `response`
models the HTTP exchange for one status poll: `none` is a transport failure
(`RequestException`), otherwise a status code together with the JSON body,
the body being the dictionary's key/value pairs.  A 200 answer returns the
body; any other code, like a transport failure, returns `none`. -/
def check_job_status (response : Option (Nat × List (String × String))) :
    Option (List (String × String)) :=
  match response with
  | none => none
  | some r => if r.1 = 200 then some r.2 else none

/-- Python `d.get(k)` on the embedded dictionary. -/
def dictGet (d : List (String × String)) (k : String) : Option String :=
  (d.find? (fun p => p.1 = k)).map (fun p => p.2)

/-- Embedding of the `wait_for_completion` loop body (fileflows.py lines
156–176).  State: remaining fuel, elapsed time `t` (the source's
`time.time() - start_time`, advanced only by `time.sleep(check_interval)`),
the current `check_interval`, and the number of status polls performed so far
(`responses polls` is the HTTP exchange of the next poll).  Returns
`(result, elapsed, polls)`; `none` only on fuel exhaustion, which
`wait_fuel_sufficient` below rules out for the fuel used by
`wait_for_completion`. -/
def waitAux (responses : Nat → Option (Nat × List (String × String)))
    (max_wait_time : ℚ) :
    Nat → ℚ → ℚ → Nat → Option (Bool × ℚ × Nat)
  | 0, _, _, _ => none
  | fuel + 1, t, check_interval, polls =>
    if t < max_wait_time then
      match check_job_status (responses polls) with
      | none => some (false, t, polls + 1)
      | some status_data =>
        if status_data = [] then some (false, t, polls + 1)
        else
          if dictGet status_data "status" = some "Completed" then
            some (true, t, polls + 1)
          else if dictGet status_data "status" = some "Failed" ∨
              dictGet status_data "status" = some "Cancelled" then
            some (false, t, polls + 1)
          else
            waitAux responses max_wait_time fuel (t + check_interval)
              (min (check_interval * (3 / 2)) 60) (polls + 1)
    else some (false, t, polls)

/-- Embedding of `wait_for_completion(job_id, max_wait_time)` (fileflows.py lines 151–176):
the loop started at elapsed time 0 with `check_interval = 10`, with enough
fuel for the worst case (every sleep lengthens `t` by at least 10). -/
def wait_for_completion (responses : Nat → Option (Nat × List (String × String)))
    (max_wait_time : ℚ) : Option (Bool × ℚ × Nat) :=
  waitAux responses max_wait_time (Nat.ceil (max_wait_time / 10) + 1) 0 10 0

/-- The sequence of values taken by `check_interval` (fileflows.py lines 154
and 173): poll `n` sleeps for `pollInterval n` time units before poll `n+1`. -/
def pollInterval : Nat → ℚ
  | 0 => 10
  | n + 1 => min (pollInterval n * (3 / 2)) 60

/-- Elapsed time at which poll `k` happens when every earlier poll kept the
loop going: the sum of the first `k` poll intervals. -/
def elapsedAt : Nat → ℚ
  | 0 => 0
  | k + 1 => elapsedAt k + pollInterval k

/-- Embedding of `submit_file_to_workflow` (fileflows.py lines 105–131).
`path_exists` models `os.path.exists(file_path)`; `post_response` the POST
exchange (`none` = `RequestException`, otherwise status code and the body's
`uid` field, itself optional since `job_data.get("uid")` may be absent). -/
def submit_file_to_workflow (path_exists : Bool)
    (post_response : Option (Nat × Option String)) : Option String :=
  if path_exists = false then none
  else
    match post_response with
    | none => none
    | some r => if r.1 = 200 then r.2 else none

/-- The fields of a `FileFlowsSubtitle` object (fileflows.py lines 28–42 and
the base `Subtitle` state): `content` is the base class's subtitle payload,
`None` until `download_subtitle` assigns it.  `content = some bytes` is the
success state the downstream pipeline accepts. -/
structure FileFlowsSubtitle where
  language : String
  video_original_path : String
  workflow_id : Option String
  job_id : Option String
  content : Option (List Nat)
deriving Repr, DecidableEq

/-- Embedding of `FileFlowsSubtitle.__init__` (fileflows.py lines 34–38): language and
video recorded, `workflow_id`/`job_id` `None`, inherited `content` `None`. -/
def FileFlowsSubtitle.new (language : String) (video_original_path : String) :
    FileFlowsSubtitle :=
  { language := language, video_original_path := video_original_path,
    workflow_id := none, job_id := none, content := none }

/-- Embedding of `list_subtitles` (fileflows.py lines 178–188): one
placeholder subtitle per requested language, in order, each stamped with the
provider's configured workflow id.  The body is a pure loop — it performs no
network interaction. -/
def FileFlowsProvider.list_subtitles (cfg : FileFlowsConfig)
    (video_original_path : String) (languages : List String) :
    List FileFlowsSubtitle :=
  languages.map (fun language =>
    { FileFlowsSubtitle.new language video_original_path with
        workflow_id := some cfg.workflow_id })

/-- Embedding of `download_subtitle` (fileflows.py lines 190–214): submit the
video's file to the workflow; a falsy job id (`None` or `""`) returns with the
subtitle unchanged; otherwise record the job id, run `wait_for_completion`
with the provider's timeout, and on success assign the empty byte string as
content (the Python function itself always returns `None`; its observable
effect is the mutated subtitle object, which this embedding returns). -/
def FileFlowsProvider.download_subtitle (cfg : FileFlowsConfig)
    (path_exists : Bool) (post_response : Option (Nat × Option String))
    (responses : Nat → Option (Nat × List (String × String)))
    (subtitle : FileFlowsSubtitle) : FileFlowsSubtitle :=
  match submit_file_to_workflow path_exists post_response with
  | none => subtitle
  | some job_id =>
    if job_id = "" then subtitle
    else
      let subtitle := { subtitle with job_id := some job_id }
      match wait_for_completion responses (cfg.timeout : ℚ) with
      | some r => if r.1 = true then { subtitle with content := some [] } else subtitle
      | none => subtitle

end FileFlows

namespace Bazarr

/-! ### Resolver lemmas -/

theorem pySplit_headD_append (xx r : List Char) (hx : ':' ∉ xx) :
    (pySplit (xx ++ r)).headD [] = xx ++ (pySplit r).headD [] := by
  induction xx with
  | nil => simp
  | cons c xs ih =>
    have hc : c ≠ ':' := fun h => hx (h ▸ List.mem_cons_self c xs)
    have hxs : ':' ∉ xs := fun h => hx (List.mem_cons_of_mem c h)
    simp only [List.cons_append, pySplit, if_neg hc, List.headD_cons, List.append_eq, ih hxs]

theorem pyEndsWith_self_append (s xx : List Char) :
    pyEndsWith s (xx ++ s) = true := by
  simp only [pyEndsWith, List.isSuffixOf_iff_suffix]
  exact List.suffix_append xx s

theorem getLast?_of_suffix {l₁ l₂ : List Char} (h : l₁ <:+ l₂) (hne : l₁ ≠ []) :
    l₂.getLast? = l₁.getLast? := by
  obtain ⟨t, rfl⟩ := h
  exact List.getLast?_append_of_ne_nil t hne

theorem pyEndsWith_append_ne {s r : List Char} (xx : List Char)
    (hs : s ≠ []) (hr : r ≠ []) (hlast : s.getLast? ≠ r.getLast?) :
    pyEndsWith s (xx ++ r) = false := by
  by_contra hcon
  have htrue : pyEndsWith s (xx ++ r) = true := by
    cases hb : pyEndsWith s (xx ++ r) with
    | false => exact absurd hb hcon
    | true => rfl
  have hsuf : s <:+ xx ++ r := by
    have := htrue
    simpa [pyEndsWith, List.isSuffixOf_iff_suffix] using this
  have h1 : (xx ++ r).getLast? = s.getLast? := getLast?_of_suffix hsuf hs
  have h2 : (xx ++ r).getLast? = r.getLast? := List.getLast?_append_of_ne_nil xx hr
  exact hlast (h1.symm.trans h2)

theorem pyEndsWith_no_colon {s : List Char} (xx : List Char)
    (hx : ':' ∉ xx) (hcolon : ':' ∈ s) : pyEndsWith s xx = false := by
  by_contra hcon
  have htrue : pyEndsWith s xx = true := by
    cases hb : pyEndsWith s xx with
    | false => exact absurd hb hcon
    | true => rfl
  have hsuf : s <:+ xx := by
    have := htrue
    simpa [pyEndsWith, List.isSuffixOf_iff_suffix] using this
  exact hx (hsuf.subset hcolon)

theorem resolveEntry_hi (xx : List Char) (hx : ':' ∉ xx) :
    resolveEntry (xx ++ [':', 'h', 'i']) = (xx, "True", "False") := by
  have h1 : pyEndsWith [':', 'h', 'i'] (xx ++ [':', 'h', 'i']) = true :=
    pyEndsWith_self_append _ xx
  have h2 : pyEndsWith [':', 'f', 'o', 'r', 'c', 'e', 'd'] (xx ++ [':', 'h', 'i']) = false :=
    pyEndsWith_append_ne xx (by simp) (by simp) (by decide)
  have h3 : (pySplit (xx ++ [':', 'h', 'i'])).headD [] = xx := by
    rw [pySplit_headD_append xx [':', 'h', 'i'] hx]
    simp [pySplit]
  simp only [resolveEntry, h1, h2]
  simpa using h3

theorem resolveEntry_forced (xx : List Char) (hx : ':' ∉ xx) :
    resolveEntry (xx ++ [':', 'f', 'o', 'r', 'c', 'e', 'd']) = (xx, "False", "True") := by
  have h1 : pyEndsWith [':', 'f', 'o', 'r', 'c', 'e', 'd']
      (xx ++ [':', 'f', 'o', 'r', 'c', 'e', 'd']) = true :=
    pyEndsWith_self_append _ xx
  have h2 : pyEndsWith [':', 'h', 'i'] (xx ++ [':', 'f', 'o', 'r', 'c', 'e', 'd']) = false :=
    pyEndsWith_append_ne xx (by simp) (by simp) (by decide)
  have h3 : (pySplit (xx ++ [':', 'f', 'o', 'r', 'c', 'e', 'd'])).headD [] = xx := by
    rw [pySplit_headD_append xx [':', 'f', 'o', 'r', 'c', 'e', 'd'] hx]
    simp [pySplit]
  simp only [resolveEntry, h1, h2]
  simpa using h3

theorem resolveEntry_plain (xx : List Char) (hx : ':' ∉ xx) :
    resolveEntry xx = (xx, "False", "False") := by
  have h1 : pyEndsWith [':', 'h', 'i'] xx = false :=
    pyEndsWith_no_colon xx hx (by decide)
  have h2 : pyEndsWith [':', 'f', 'o', 'r', 'c', 'e', 'd'] xx = false :=
    pyEndsWith_no_colon xx hx (by decide)
  have h3 : (pySplit xx).headD [] = xx := by
    have := pySplit_headD_append xx [] hx
    simpa [pySplit] using this
  simp only [resolveEntry, h1, h2]
  simpa using h3

/-! ### Resolver-loop lemmas -/

theorem buildLanguagesAux_active (gp : Nat → List String) :
    ∀ (entries : List (Option (List Char))) (idx : Nat),
      (∀ i, i < entries.length → gp (idx + i) ≠ []) →
      buildLanguagesAux gp entries idx =
        (entries.filterMap (Option.map resolveEntry), idx + entries.length) := by
  intro entries
  induction entries with
  | nil => intro idx _; simp [buildLanguagesAux]
  | cons e rest ih =>
    intro idx h
    have h0 : gp idx ≠ [] := by
      have := h 0 (by simp)
      simpa using this
    have hrest : ∀ i, i < rest.length → gp (idx + 1 + i) ≠ [] := by
      intro i hi
      have := h (i + 1) (by simpa using Nat.succ_lt_succ hi)
      simpa [Nat.add_assoc, Nat.add_comm 1 i] using this
    cases e with
    | none =>
      simp only [buildLanguagesAux, if_pos h0, ih (idx + 1) hrest]
      simp [Nat.add_assoc, Nat.add_comm 1 rest.length]
    | some lang =>
      simp only [buildLanguagesAux, if_pos h0, ih (idx + 1) hrest]
      simp [Nat.add_assoc, Nat.add_comm 1 rest.length]

theorem buildLanguagesAux_break (gp : Nat → List String) :
    ∀ (k : Nat) (entries : List (Option (List Char))) (idx : Nat),
      (∀ i, i < k → gp (idx + i) ≠ []) →
      gp (idx + k) = [] →
      k < entries.length →
      buildLanguagesAux gp entries idx =
        ((entries.take k).filterMap (Option.map resolveEntry), idx + k + 1) := by
  intro k
  induction k with
  | zero =>
    intro entries idx _ hat hlen
    cases entries with
    | nil => simp at hlen
    | cons e rest =>
      have h0 : gp idx = [] := by simpa using hat
      simp [buildLanguagesAux, h0]
  | succ k ih =>
    intro entries idx hbefore hat hlen
    cases entries with
    | nil => simp at hlen
    | cons e rest =>
      have h0 : gp idx ≠ [] := by
        have := hbefore 0 (Nat.succ_pos k)
        simpa using this
      have hbefore' : ∀ i, i < k → gp (idx + 1 + i) ≠ [] := by
        intro i hi
        have := hbefore (i + 1) (Nat.succ_lt_succ hi)
        simpa [Nat.add_assoc, Nat.add_comm 1 i] using this
      have hat' : gp (idx + 1 + k) = [] := by
        have : idx + 1 + k = idx + (k + 1) := by omega
        rw [this]; exact hat
      have hlen' : k < rest.length := by simpa using Nat.lt_of_succ_lt_succ hlen
      cases e with
      | none =>
        simp only [buildLanguagesAux, if_pos h0, ih rest (idx + 1) hbefore' hat' hlen',
          List.take_succ_cons, List.filterMap_cons, Option.map_none', Prod.mk.injEq]
        exact ⟨trivial, by omega⟩
      | some lang =>
        simp only [buildLanguagesAux, if_pos h0, ih rest (idx + 1) hbefore' hat' hlen',
          List.take_succ_cons, List.filterMap_cons, Option.map_some', Prod.mk.injEq]
        exact ⟨trivial, by omega⟩

/-! ### Orchestrator theorems (claims C1–C4) and concrete instances -/

/-- A concrete movie row with one missing subtitle entry `'en'`. -/
def movieEn : MovieRecord :=
  { path := "/movies/m.mkv", missing_subtitles := [some ['e', 'n']],
    audio_language := "en", radarrId := 1, sceneName := "sc", title := "T",
    profileId := 3 }

/-- A concrete movie row with two missing subtitle entries `'en'`, `'es:hi'`. -/
def movieEnEs : MovieRecord :=
  { path := "/movies/m.mkv",
    missing_subtitles := [some ['e', 'n'], some ['e', 's', ':', 'h', 'i']],
    audio_language := "en", radarrId := 1, sceneName := "sc", title := "T",
    profileId := 3 }

/-- A registry that is active on its first consultation and throttled from the
second consultation on. -/
def gpOne : Nat → List String := fun i => if i = 0 then ["embedded"] else []

/-- A deterministic `generate_subtitles` oracle: one successful result,
carrying the message `"downloaded"`, per language request. -/
def genOk : String → List (List Char × String × String) → String → List GenResult :=
  fun _ langs _ => langs.map (fun _ => GenResult.single "downloaded")

/-- Claim C1: if the registry is active for the first `k` consultations and
reports an empty active set at consultation `k` (one consultation per raw
entry, `k` within range), the orchestrator breaks out of the resolver loop:
the registry is consulted exactly `k + 1` times, only the language requests
built from entries `[0, k)` are handed to `generate_subtitles`, and the
results dispatched to the sinks are exactly those produced for that truncated
request list — requests for earlier indices are preserved, indices `[k, n)`
are never processed. -/
theorem registry_empty_truncates_pass
    (m : MovieRecord) (prep : String → String) (pexists : String → Bool)
    (audio : String → List String) (gp : Nat → List String)
    (gen : String → List (List Char × String × String) → String → List GenResult)
    (k : Nat)
    (hpath : pexists (prep m.path) = true)
    (hk : k < m.missing_subtitles.length)
    (hbefore : ∀ i, i < k → gp i ≠ [])
    (hat : gp k = []) :
    movies_download_subtitles (some m) prep pexists audio gp gen =
      Except.ok
        { returnValue := none,
          notified := (gen (prep m.path)
              ((m.missing_subtitles.take k).filterMap (Option.map resolveEntry))
              (if (audio m.audio_language).length > 0
               then (audio m.audio_language).headD "None" else "None")).filterMap
            truthyMessage,
          historyLogged := ((gen (prep m.path)
              ((m.missing_subtitles.take k).filterMap (Option.map resolveEntry))
              (if (audio m.audio_language).length > 0
               then (audio m.audio_language).headD "None" else "None")).filterMap
            truthyMessage).length,
          stored := ((gen (prep m.path)
              ((m.missing_subtitles.take k).filterMap (Option.map resolveEntry))
              (if (audio m.audio_language).length > 0
               then (audio m.audio_language).headD "None" else "None")).filterMap
            truthyMessage).length,
          progressStart := some (0, m.missing_subtitles.length),
          progressEnd := true,
          registryCalls := k + 1,
          languagesPassed :=
            (m.missing_subtitles.take k).filterMap (Option.map resolveEntry) } := by
  have hne : m.missing_subtitles ≠ [] := by
    intro h
    rw [h] at hk
    exact absurd hk (by simp)
  have hbuild : buildLanguages gp m.missing_subtitles =
      ((m.missing_subtitles.take k).filterMap (Option.map resolveEntry), k + 1) := by
    have := buildLanguagesAux_break gp k m.missing_subtitles 0
      (by simpa using hbefore) (by simpa using hat) hk
    simpa [buildLanguages] using this
  simp only [movies_download_subtitles, hpath, Bool.true_eq_false, if_false, hbuild,
    if_pos hne]

/-- Witness for C1: two missing entries, registry throttled at the second
consultation (`k = 1`): one registry-break, requests only for `'en'`, one
result dispatched, two consultations. -/
theorem registry_empty_truncates_pass_witness :
    movies_download_subtitles (some movieEnEs) id (fun _ => true)
        (fun _ => ["English"]) gpOne genOk =
      Except.ok
        { returnValue := none, notified := ["downloaded"], historyLogged := 1,
          stored := 1, progressStart := some (0, 2), progressEnd := true,
          registryCalls := 2,
          languagesPassed := [(['e', 'n'], "False", "False")] } := by
  rw [registry_empty_truncates_pass movieEnEs id (fun _ => true)
    (fun _ => ["English"]) gpOne genOk 1 rfl (by decide) (by decide) (by decide)]
  rfl

/-- Claim C2: the resolver maps `"xx:hi"` to hearing-impaired set and forced
clear, `"xx:forced"` to hearing-impaired clear and forced set, bare `"xx"` to
both clear (the code represents the flags by the Python strings
`"True"`/`"False"`); and with providers active throughout, the resolver loop
preserves input order and skips `None` entries rather than converting them. -/
theorem resolver_mapping
    (xx : List Char) (hx : ':' ∉ xx)
    (gp : Nat → List String) (hgp : ∀ i, gp i ≠ [])
    (entries : List (Option (List Char))) :
    resolveEntry (xx ++ [':', 'h', 'i']) = (xx, "True", "False") ∧
    resolveEntry (xx ++ [':', 'f', 'o', 'r', 'c', 'e', 'd']) = (xx, "False", "True") ∧
    resolveEntry xx = (xx, "False", "False") ∧
    (buildLanguages gp entries).1 = entries.filterMap (Option.map resolveEntry) := by
  refine ⟨resolveEntry_hi xx hx, resolveEntry_forced xx hx, resolveEntry_plain xx hx, ?_⟩
  have := buildLanguagesAux_active gp entries 0 (fun i _ => hgp (0 + i))
  simp [buildLanguages, this]

/-- Witness for C2 at `xx = "en"`, an always-active registry, and an entry
list containing a `None` sentinel. -/
theorem resolver_mapping_witness :
    resolveEntry (['e', 'n'] ++ [':', 'h', 'i']) = (['e', 'n'], "True", "False") ∧
    resolveEntry (['e', 'n'] ++ [':', 'f', 'o', 'r', 'c', 'e', 'd']) =
      (['e', 'n'], "False", "True") ∧
    resolveEntry ['e', 'n'] = (['e', 'n'], "False", "False") ∧
    (buildLanguages (fun _ => ["embedded"])
        [some ['e', 'n'], none, some ['e', 's', ':', 'h', 'i']]).1 =
      [some ['e', 'n'], none,
        some ['e', 's', ':', 'h', 'i']].filterMap (Option.map resolveEntry) :=
  resolver_mapping ['e', 'n'] (by decide) (fun _ => ["embedded"])
    (fun i => List.cons_ne_nil "embedded" [])
    [some ['e', 'n'], none, some ['e', 's', ':', 'h', 'i']]

/-- The normal-path form of `movies_download_subtitles`: with the movie row
present and the mapped path existing, the call returns `Except.ok` with the
outcome spelled out in terms of the resolver loop and the generator. -/
theorem acquire_ok_form
    (m : MovieRecord) (prep : String → String) (pexists : String → Bool)
    (audio : String → List String) (gp : Nat → List String)
    (gen : String → List (List Char × String × String) → String → List GenResult)
    (hpath : pexists (prep m.path) = true) :
    movies_download_subtitles (some m) prep pexists audio gp gen =
      Except.ok
        { returnValue := none,
          notified := (gen (prep m.path) (buildLanguages gp m.missing_subtitles).1
              (if (audio m.audio_language).length > 0
               then (audio m.audio_language).headD "None" else "None")).filterMap
            truthyMessage,
          historyLogged := ((gen (prep m.path) (buildLanguages gp m.missing_subtitles).1
              (if (audio m.audio_language).length > 0
               then (audio m.audio_language).headD "None" else "None")).filterMap
            truthyMessage).length,
          stored := ((gen (prep m.path) (buildLanguages gp m.missing_subtitles).1
              (if (audio m.audio_language).length > 0
               then (audio m.audio_language).headD "None" else "None")).filterMap
            truthyMessage).length,
          progressStart := some (0,
            if m.missing_subtitles ≠ [] then m.missing_subtitles.length else 0),
          progressEnd := true,
          registryCalls := (buildLanguages gp m.missing_subtitles).2,
          languagesPassed := (buildLanguages gp m.missing_subtitles).1 } := by
  simp only [movies_download_subtitles, hpath, Bool.true_eq_false, if_false]

/-- Counterexample to C3: a pass that collects a Result (the notification
sink receives `"downloaded"`, history and store each run once) still returns
the Python value `None` — not the Result list — to its caller: the source has
no `return` of the collected results. -/
theorem acquire_returns_none_despite_results :
    movies_download_subtitles (some movieEn) id (fun _ => true)
        (fun _ => ["English"]) (fun _ => ["embedded"]) genOk =
      Except.ok
        { returnValue := none, notified := ["downloaded"], historyLogged := 1,
          stored := 1, progressStart := some (0, 1), progressEnd := true,
          registryCalls := 1,
          languagesPassed := [(['e', 'n'], "False", "False")] } := by
  rfl

/-- Claim C3 amended: the function `movies_download_subtitles` consumes the collected
Results internally — each truthy result is dispatched to the store, history
and notification sinks — and returns `None` (no value) to its scheduler/CLI
caller, both when an item is found and when it is absent. -/
theorem acquire_consumes_results_internally
    (m : MovieRecord) (prep : String → String) (pexists : String → Bool)
    (audio : String → List String) (gp : Nat → List String)
    (gen : String → List (List Char × String × String) → String → List GenResult)
    (hpath : pexists (prep m.path) = true) :
    (∃ o, movies_download_subtitles (some m) prep pexists audio gp gen = Except.ok o ∧
      o.returnValue = none ∧
      o.notified = (gen (prep m.path) o.languagesPassed
          (if (audio m.audio_language).length > 0
           then (audio m.audio_language).headD "None" else "None")).filterMap
        truthyMessage ∧
      o.historyLogged = o.notified.length ∧
      o.stored = o.notified.length) ∧
    (∃ o2, movies_download_subtitles none prep pexists audio gp gen = Except.ok o2 ∧
      o2.returnValue = none) := by
  refine ⟨⟨_, acquire_ok_form m prep pexists audio gp gen hpath, rfl, rfl, rfl, rfl⟩,
    ⟨_, rfl, rfl⟩⟩

/-- Witness for the amended C3 at a concrete movie, one provider, one
successful result. -/
theorem acquire_consumes_results_internally_witness :
    (∃ o, movies_download_subtitles (some movieEn) id (fun _ => true)
        (fun _ => ["English"]) (fun _ => ["embedded"]) genOk = Except.ok o ∧
      o.returnValue = none ∧
      o.notified = (genOk (id movieEn.path) o.languagesPassed
          (if ((fun (_ : String) => ["English"]) movieEn.audio_language).length > 0
           then ((fun (_ : String) => ["English"]) movieEn.audio_language).headD "None"
           else "None")).filterMap truthyMessage ∧
      o.historyLogged = o.notified.length ∧
      o.stored = o.notified.length) ∧
    (∃ o2, movies_download_subtitles none id (fun _ => true)
        (fun _ => ["English"]) (fun _ => ["embedded"]) genOk = Except.ok o2 ∧
      o2.returnValue = none) :=
  acquire_consumes_results_internally movieEn id (fun _ => true)
    (fun _ => ["English"]) (fun _ => ["embedded"]) genOk rfl

/-- Counterexample to C4: with the movie present in the database but its
mapped on-disk path absent, `movies_download_subtitles` executes
`raise OSError`: the exception propagates across the top-level boundary
instead of resolving to an early return. -/
theorem acquire_raises_oserror_on_missing_path :
    movies_download_subtitles (some movieEn) id (fun _ => false)
        (fun _ => ["English"]) (fun _ => ["embedded"]) genOk =
      Except.error PyErr.osError := by
  rfl

/-- Claim C4 amended: an absent item resolves to an early `None` return with no
side effects, and whenever the mapped on-disk path exists the call returns
normally (no exception for any registry, generator or profile behaviour);
only a missing on-disk media path raises (`OSError`), as the counterexample
shows. -/
theorem acquire_exception_policy
    (prep : String → String) (pexists : String → Bool)
    (audio : String → List String) (gp : Nat → List String)
    (gen : String → List (List Char × String × String) → String → List GenResult)
    (m : MovieRecord)
    (hpath : pexists (prep m.path) = true) :
    movies_download_subtitles none prep pexists audio gp gen =
      Except.ok
        { returnValue := none, notified := [], historyLogged := 0, stored := 0,
          progressStart := none, progressEnd := false, registryCalls := 0,
          languagesPassed := [] } ∧
    (∃ o, movies_download_subtitles (some m) prep pexists audio gp gen = Except.ok o) :=
  ⟨rfl, ⟨_, acquire_ok_form m prep pexists audio gp gen hpath⟩⟩

/-- Witness for the amended C4 at concrete inputs with an existing path. -/
theorem acquire_exception_policy_witness :
    movies_download_subtitles none id (fun _ => true) (fun _ => ["English"])
        (fun _ => ["embedded"]) genOk =
      Except.ok
        { returnValue := none, notified := [], historyLogged := 0, stored := 0,
          progressStart := none, progressEnd := false, registryCalls := 0,
          languagesPassed := [] } ∧
    (∃ o, movies_download_subtitles (some movieEn) id (fun _ => true)
        (fun _ => ["English"]) (fun _ => ["embedded"]) genOk = Except.ok o) :=
  acquire_exception_policy id (fun _ => true) (fun _ => ["English"])
    (fun _ => ["embedded"]) genOk movieEn rfl

end Bazarr

namespace FileFlows

/-! ### Poll-interval and wait-loop lemmas (claims C5–C7) -/

/-- One status poll whose answer keeps the loop in its polling state: the HTTP
exchange succeeds with code 200, the body is a non-empty dictionary, and the
`status` field is none of `Completed`, `Failed`, `Cancelled`. -/
def nonTerminalPoll (response : Option (Nat × List (String × String))) : Prop :=
  ∃ sd, check_job_status response = some sd ∧ sd ≠ [] ∧
    dictGet sd "status" ≠ some "Completed" ∧
    dictGet sd "status" ≠ some "Failed" ∧
    dictGet sd "status" ≠ some "Cancelled"

theorem pollInterval_ge_ten : ∀ n, (10 : ℚ) ≤ pollInterval n := by
  intro n
  induction n with
  | zero => simp [pollInterval]
  | succ n ih =>
    refine le_min ?_ (by norm_num)
    linarith

theorem pollInterval_le_sixty : ∀ n, pollInterval n ≤ 60 := by
  intro n
  cases n with
  | zero => simp [pollInterval]; norm_num
  | succ n => exact min_le_right _ _

theorem elapsedAt_ge (k : Nat) : (10 : ℚ) * k ≤ elapsedAt k := by
  induction k with
  | zero => simp [elapsedAt]
  | succ k ih =>
    have h := pollInterval_ge_ten k
    have : ((k + 1 : Nat) : ℚ) = (k : ℚ) + 1 := by push_cast; ring
    rw [elapsedAt, this]
    linarith

theorem elapsedAt_lt_succ (k : Nat) : elapsedAt k < elapsedAt (k + 1) := by
  have h := pollInterval_ge_ten k
  rw [elapsedAt]
  linarith

theorem waitAux_isSome (responses : Nat → Option (Nat × List (String × String)))
    (M : ℚ) :
    ∀ (fuel : Nat) (t i : ℚ) (polls : Nat), 10 ≤ i → M ≤ t + 10 * fuel →
      (waitAux responses M (fuel + 1) t i polls).isSome = true := by
  intro fuel
  induction fuel with
  | zero =>
    intro t i polls _ hM
    have hM' : ¬ t < M := not_lt.mpr (by simpa using hM)
    simp only [waitAux, if_neg hM']
    rfl
  | succ fuel ih =>
    intro t i polls hi hM
    by_cases ht : t < M
    · simp only [waitAux, if_pos ht]
      split
      · rfl
      · split
        · rfl
        · split
          · rfl
          · split
            · rfl
            · apply ih
              · exact le_min (by linarith) (by norm_num)
              · have hc : ((fuel + 1 : Nat) : ℚ) = (fuel : ℚ) + 1 := by push_cast; ring
                rw [hc] at hM
                linarith
    · simp only [waitAux, if_neg ht]
      rfl

theorem waitAux_false_of_nonterminal
    (responses : Nat → Option (Nat × List (String × String))) (M : ℚ)
    (hall : ∀ n, nonTerminalPoll (responses n)) :
    ∀ (fuel : Nat) (t i : ℚ) (polls : Nat) (b : Bool) (e : ℚ) (q : Nat),
      i ≤ 60 → t < M + 60 →
      waitAux responses M fuel t i polls = some (b, e, q) →
      b = false ∧ e < M + 60 := by
  intro fuel
  induction fuel with
  | zero =>
    intro t i polls b e q _ _ h
    simp [waitAux] at h
  | succ fuel ih =>
    intro t i polls b e q hi ht h
    by_cases htM : t < M
    · obtain ⟨sd, hsd, hne, hc1, hc2, hc3⟩ := hall polls
      have hfc : ¬ (dictGet sd "status" = some "Failed" ∨
          dictGet sd "status" = some "Cancelled") := by
        rintro (hx | hx)
        · exact hc2 hx
        · exact hc3 hx
      rw [waitAux, if_pos htM, hsd] at h
      simp only [if_neg hne, if_neg hc1, if_neg hfc] at h
      exact ih (t + i) (min (i * (3 / 2)) 60) (polls + 1) b e q
        (min_le_right _ _) (by linarith) h
    · rw [waitAux, if_neg htM] at h
      simp only [Option.some.injEq, Prod.mk.injEq] at h
      obtain ⟨hb, he, _⟩ := h
      exact ⟨hb.symm, he ▸ ht⟩

theorem waitAux_reaches (responses : Nat → Option (Nat × List (String × String)))
    (M : ℚ) :
    ∀ (k f : Nat),
      (∀ i, i < k → nonTerminalPoll (responses i)) →
      elapsedAt k < M →
      waitAux responses M (f + k) 0 10 0 =
        waitAux responses M f (elapsedAt k) (pollInterval k) k := by
  intro k
  induction k with
  | zero => intro f _ _; rfl
  | succ k ih =>
    intro f hbefore htime
    have htk : elapsedAt k < M := lt_trans (elapsedAt_lt_succ k) htime
    have h1 : f + (k + 1) = (f + 1) + k := by omega
    rw [h1, ih (f + 1) (fun i hi => hbefore i (Nat.lt_succ_of_lt hi)) htk]
    obtain ⟨sd, hsd, hne, hc1, hc2, hc3⟩ := hbefore k (Nat.lt_succ_self k)
    have hfc : ¬ (dictGet sd "status" = some "Failed" ∨
        dictGet sd "status" = some "Cancelled") := by
      rintro (hx | hx)
      · exact hc2 hx
      · exact hc3 hx
    rw [waitAux, if_pos htk, hsd]
    simp only [if_neg hne, if_neg hc1, if_neg hfc]
    rfl

end FileFlows

namespace FileFlows

/-- Claim C5: if every status poll answers with a non-terminal status (the job
never leaves `Processing`/`Pending`), `wait_for_completion` terminates with a
timed-out failure: it returns `false`, never success, and the total time spent
blocked stays below the configured timeout plus one poll interval (every poll
interval is capped at 60). -/
theorem wait_times_out_without_terminal_status
    (responses : Nat → Option (Nat × List (String × String))) (M : ℚ)
    (hM : 0 < M) (hall : ∀ n, nonTerminalPoll (responses n)) :
    ∃ e q, wait_for_completion responses M = some (false, e, q) ∧ e < M + 60 := by
  have hceil : M ≤ 0 + 10 * (Nat.ceil (M / 10) : ℚ) := by
    have h := Nat.le_ceil (M / 10)
    have h2 : M / 10 * 10 = M := by field_simp
    nlinarith
  have hsome := waitAux_isSome responses M (Nat.ceil (M / 10)) 0 10 0 le_rfl hceil
  obtain ⟨r, hr⟩ := Option.isSome_iff_exists.mp hsome
  obtain ⟨b, e, q⟩ := r
  have hrun : wait_for_completion responses M = some (b, e, q) := hr
  have hb := waitAux_false_of_nonterminal responses M hall
    (Nat.ceil (M / 10) + 1) 0 10 0 b e q (by norm_num) (by linarith) hr
  exact ⟨e, q, hb.1 ▸ hrun, hb.2⟩

/-- Witness for C5: a 20-unit timeout against a job stuck in `Processing`. -/
theorem wait_times_out_without_terminal_status_witness :
    ∃ e q, wait_for_completion (fun _ => some (200, [("status", "Processing")])) 20 =
      some (false, e, q) ∧ e < 20 + 60 :=
  wait_times_out_without_terminal_status
    (fun _ => some (200, [("status", "Processing")])) 20 (by norm_num)
    (fun n => ⟨[("status", "Processing")], rfl, by decide, by decide, by decide, by decide⟩)

/-- Claim C6: the poll-interval sequence — start 10, growth ×1.5 after every
poll, cap 60 — is exactly 10, 15, 22.5, 33.75, 50.625, 60, 60, …: its first
seven values are as listed, it is monotonically non-decreasing, it is bounded
above by 60 for every number of polls, and from the sixth poll on it is
constantly 60. -/
theorem poll_interval_schedule :
    (pollInterval 0 = 10 ∧ pollInterval 1 = 15 ∧ pollInterval 2 = 45 / 2 ∧
     pollInterval 3 = 135 / 4 ∧ pollInterval 4 = 405 / 8 ∧
     pollInterval 5 = 60 ∧ pollInterval 6 = 60) ∧
    (∀ n, pollInterval n ≤ pollInterval (n + 1)) ∧
    (∀ n, pollInterval n ≤ 60) ∧
    (∀ n, 5 ≤ n → pollInterval n = 60) := by
  have hsixty : ∀ n, 5 ≤ n → pollInterval n = 60 := by
    intro n hn
    induction n with
    | zero => exact absurd hn (by norm_num)
    | succ n ih =>
      rcases Nat.lt_or_ge n 5 with hlt | hge
      · interval_cases n
        · exact absurd hn (by norm_num)
        · exact absurd hn (by norm_num)
        · exact absurd hn (by norm_num)
        · exact absurd hn (by norm_num)
        · norm_num [pollInterval]
      · rw [pollInterval, ih hge]
        norm_num
  refine ⟨⟨rfl, by norm_num [pollInterval], by norm_num [pollInterval],
    by norm_num [pollInterval], by norm_num [pollInterval], by norm_num [pollInterval],
    by norm_num [pollInterval]⟩, ?_, pollInterval_le_sixty, hsixty⟩
  intro n
  have h10 := pollInterval_ge_ten n
  have h60 := pollInterval_le_sixty n
  rw [pollInterval]
  exact le_min (by linarith) h60

/-- Witness for C6's eventually-constant clause at poll 7. -/
theorem poll_interval_schedule_witness : pollInterval 7 = 60 :=
  poll_interval_schedule.2.2.2 7 (by norm_num)

/-- Claim C7: if the first `k` polls keep the loop going and poll `k` fails at
the transport level — `check_job_status` obtains no status data because the
endpoint is unreachable or answers with a non-success code — and the timeout
has not yet elapsed, then `wait_for_completion` returns failure immediately at
that poll: exactly `k + 1` status checks are performed (no retry) and no
further time is spent sleeping. -/
theorem transport_failure_stops_polling
    (responses : Nat → Option (Nat × List (String × String))) (M : ℚ) (k : Nat)
    (hbefore : ∀ i, i < k → nonTerminalPoll (responses i))
    (hfail : check_job_status (responses k) = none)
    (htime : elapsedAt k < M) :
    wait_for_completion responses M = some (false, elapsedAt k, k + 1) := by
  have h10 : (10 : ℚ) * k ≤ elapsedAt k := elapsedAt_ge k
  have hkM : (k : ℚ) < M / 10 := by
    rw [lt_div_iff₀ (by norm_num : (0 : ℚ) < 10)]
    linarith
  have hk1 : k < Nat.ceil (M / 10) := Nat.lt_ceil.mpr hkM
  obtain ⟨g, hgeq⟩ : ∃ g, Nat.ceil (M / 10) + 1 = (g + 1) + k :=
    ⟨Nat.ceil (M / 10) - k, by omega⟩
  unfold wait_for_completion
  rw [hgeq, waitAux_reaches responses M k (g + 1) hbefore htime]
  rw [waitAux, if_pos htime, hfail]

/-- Witness for C7: the very first status check hits a 503 answer (a
non-success code, hence no status data) under an ample timeout. -/
theorem transport_failure_stops_polling_witness :
    wait_for_completion (fun _ => some (503, [])) 3600 = some (false, elapsedAt 0, 0 + 1) :=
  transport_failure_stops_polling (fun _ => some (503, [])) 3600 0
    (fun i hi => absurd hi (Nat.not_lt_zero i)) (by decide) (by decide)

end FileFlows

namespace FileFlows

/-! ### Constructor validation (claim C8), materialization (C9), listing (C10) -/

/-- Counterexample to C8: with all four required settings present but the
log-level argument left at its default `None`, the constructor raises
`AttributeError` from `set_log_level` (`None.upper()`) before any
configuration check runs — construction neither succeeds nor fails with a
`ConfigurationError`. -/
theorem init_raises_attribute_error_with_default_loglevel :
    FileFlowsProvider.init (some "http://ff.local") (some "key") (some "wf-1")
        (some 300) none = Except.error Bazarr.PyErr.attributeError := by
  rfl

/-- Claim C8 amended: provided the log-level argument is a valid logging level
name (so `set_log_level` succeeds): if the service endpoint, the credential,
the workflow identifier or the timeout is missing (Python-falsy), construction
fails with a `ConfigurationError`; when all four are present, construction
succeeds without raising, and the constructed provider holds no HTTP session
(`session = None`) — no network interaction has been attempted. -/
theorem init_validation (api_url api_key workflow_id : Option String)
    (timeout : Option Int) (loglevel : Option String)
    (hll : set_log_level loglevel = Except.ok ()) :
    ((pyFalsyStr api_url = true ∨ pyFalsyStr api_key = true ∨
      pyFalsyStr workflow_id = true ∨ pyFalsyInt timeout = true) →
      ∃ msg, FileFlowsProvider.init api_url api_key workflow_id timeout loglevel =
        Except.error (Bazarr.PyErr.configurationError msg)) ∧
    (pyFalsyStr api_url = false → pyFalsyStr api_key = false →
      pyFalsyStr workflow_id = false → pyFalsyInt timeout = false →
      ∃ cfg, FileFlowsProvider.init api_url api_key workflow_id timeout loglevel =
        Except.ok cfg ∧ cfg.session = none) := by
  constructor
  · intro h
    cases hu : pyFalsyStr api_url with
    | true =>
      exact ⟨"FileFlows API URL must be provided",
        by simp [FileFlowsProvider.init, hll, hu]⟩
    | false =>
      cases hk : pyFalsyStr api_key with
      | true =>
        exact ⟨"FileFlows API Key must be provided",
          by simp [FileFlowsProvider.init, hll, hu, hk]⟩
      | false =>
        cases hw : pyFalsyStr workflow_id with
        | true =>
          exact ⟨"FileFlows Workflow ID must be provided",
            by simp [FileFlowsProvider.init, hll, hu, hk, hw]⟩
        | false =>
          cases htt : pyFalsyInt timeout with
          | true =>
            exact ⟨"FileFlows API timeout must be provided",
              by simp [FileFlowsProvider.init, hll, hu, hk, hw, htt]⟩
          | false =>
            rcases h with h | h | h | h <;> simp_all
  · intro hu hk hw htt
    refine ⟨{ api_url := pyRstripSlash (api_url.getD ""), api_key := api_key.getD "",
              workflow_id := workflow_id.getD "", timeout := timeout.getD 0,
              session := none }, ?_, rfl⟩
    simp [FileFlowsProvider.init, hll, hu, hk, hw, htt]

/-- Witness for the amended C8: a fully configured provider with log level
`"INFO"` constructs successfully, session unset. -/
theorem init_validation_witness :
    ((pyFalsyStr (some "http://ff.local/") = true ∨ pyFalsyStr (some "key") = true ∨
      pyFalsyStr (some "wf-1") = true ∨ pyFalsyInt (some 300) = true) →
      ∃ msg, FileFlowsProvider.init (some "http://ff.local/") (some "key")
          (some "wf-1") (some 300) (some "INFO") =
        Except.error (Bazarr.PyErr.configurationError msg)) ∧
    (pyFalsyStr (some "http://ff.local/") = false → pyFalsyStr (some "key") = false →
      pyFalsyStr (some "wf-1") = false → pyFalsyInt (some 300) = false →
      ∃ cfg, FileFlowsProvider.init (some "http://ff.local/") (some "key")
          (some "wf-1") (some 300) (some "INFO") = Except.ok cfg ∧
        cfg.session = none) :=
  init_validation (some "http://ff.local/") (some "key") (some "wf-1") (some 300)
    (some "INFO") (by simp [set_log_level, pyUpper, loggingLevelNames])

/-- Claim C9: when the remote job is submitted successfully (a truthy job id
comes back) and the wait loop reports completion, `download_subtitle` records
the job id and assigns the empty byte string as the subtitle content: the
result is a set (non-`None`) content — a valid success outcome — that is
empty. -/
theorem materialize_success_empty_content
    (cfg : FileFlowsConfig) (path_found : Bool)
    (post_response : Option (Nat × Option String))
    (responses : Nat → Option (Nat × List (String × String)))
    (subtitle : FileFlowsSubtitle) (job_id : String) (e : ℚ) (q : Nat)
    (hsubmit : submit_file_to_workflow path_found post_response = some job_id)
    (hjid : job_id ≠ "")
    (hwait : wait_for_completion responses (cfg.timeout : ℚ) = some (true, e, q)) :
    (FileFlowsProvider.download_subtitle cfg path_found post_response responses
      subtitle).content = some [] ∧
    (FileFlowsProvider.download_subtitle cfg path_found post_response responses
      subtitle).content ≠ none ∧
    (FileFlowsProvider.download_subtitle cfg path_found post_response responses
      subtitle).job_id = some job_id := by
  simp only [FileFlowsProvider.download_subtitle, hsubmit, if_neg hjid, hwait]
  refine ⟨rfl, by simp, rfl⟩

/-- A concrete, fully configured provider used by the C9 witness. -/
def cfgDemo : FileFlowsConfig :=
  { api_url := "http://ff.local", api_key := "key", workflow_id := "wf-1",
    timeout := 20, session := none }

/-- Witness for C9: submission answers 200 with job id `"job-1"`, the first
status poll answers `Completed`. -/
theorem materialize_success_empty_content_witness :
    (FileFlowsProvider.download_subtitle cfgDemo true (some (200, some "job-1"))
      (fun _ => some (200, [("status", "Completed")]))
      (FileFlowsSubtitle.new "en" "/movies/m.mkv")).content = some [] ∧
    (FileFlowsProvider.download_subtitle cfgDemo true (some (200, some "job-1"))
      (fun _ => some (200, [("status", "Completed")]))
      (FileFlowsSubtitle.new "en" "/movies/m.mkv")).content ≠ none ∧
    (FileFlowsProvider.download_subtitle cfgDemo true (some (200, some "job-1"))
      (fun _ => some (200, [("status", "Completed")]))
      (FileFlowsSubtitle.new "en" "/movies/m.mkv")).job_id = some "job-1" :=
  materialize_success_empty_content cfgDemo true (some (200, some "job-1"))
    (fun _ => some (200, [("status", "Completed")]))
    (FileFlowsSubtitle.new "en" "/movies/m.mkv") "job-1" 0 1 rfl
    (by decide) rfl

/-- Claim C10: the candidate listing `list_subtitles` — a pure function performing no network
interaction — returns exactly one candidate per requested language, in input
order, each carrying that language and the provider's configured workflow id;
in particular the candidate list is empty exactly when the requested language
list is empty. -/
theorem list_candidates_one_per_language
    (cfg : FileFlowsConfig) (video_path : String) (languages : List String) :
    (FileFlowsProvider.list_subtitles cfg video_path languages).length =
      languages.length ∧
    (∀ i : Nat, ((FileFlowsProvider.list_subtitles cfg video_path languages)[i]?).map
        (fun s => (s.language, s.workflow_id)) =
      (languages[i]?).map (fun l => (l, some cfg.workflow_id))) ∧
    ((FileFlowsProvider.list_subtitles cfg video_path languages = []) ↔
      languages = []) := by
  refine ⟨by simp [FileFlowsProvider.list_subtitles], ?_,
    by simp [FileFlowsProvider.list_subtitles]⟩
  intro i
  simp only [FileFlowsProvider.list_subtitles, FileFlowsSubtitle.new, List.getElem?_map,
    Option.map_map]
  cases hx : languages[i]? <;> rfl

end FileFlows
